import Mathlib

/-!
Verification of the `imucal` repository (Ferraris IMU calibration).

The development shallowly embeds the two source files
`imucal/ferraris_calibration.py` and `imucal/calibration_info.py`.
Numpy float arrays are idealized as real vectors/matrices
(`Fin 3 → ℝ`, `Matrix (Fin 3) (Fin 3) ℝ`); `np.linalg.inv` raises
`LinAlgError` exactly on singular matrices, modelled by an explicit
determinant check returning `Except.error`.  Python exceptions in
general are modelled by `Except String`.
The class `FerrarisCalibrationInfo` lives in
`imucal/ferraris_calibration_info.py`, which is not part of the source
tree; its pieces (field list, `CAL_TYPE`, the forward accelerometer
transform and the gyro offset removal) are modelled from the spec and
marked as such in their doc comments.
-/

noncomputable section

open Matrix

abbrev Vec3 := Fin 3 → ℝ

abbrev Mat3 := Matrix (Fin 3) (Fin 3) ℝ

/-- Embeds `np.mean(arr, axis=0)` over a list of 3-vectors (one sample per row).
For the empty list numpy emits a RuntimeWarning and returns NaN; here the
real-division convention gives `0/0 = 0` — no exception is raised, which is
the behaviour relevant to the claims. -/
def vecMean (l : List Vec3) : Vec3 := fun i => (l.map (fun v => v i)).sum / l.length

/-- Embeds `np.sum(arr, axis=0)` over a list of 3-vectors. -/
def vecSum (l : List Vec3) : Vec3 := fun i => (l.map (fun v => v i)).sum

/-- The calibration record produced by `FerrarisCalibration.compute_calibration_matrix`.
The five metadata fields are those of the `CalibrationInfo` dataclass
(`calibration_info.py`, lines 27-31); the seven parameter arrays are the
Ferraris parameter fields (spec §3 table).  The concrete subclass is defined
in `ferraris_calibration_info.py`, which is absent from src; its field list
is modelled from the spec. -/
structure FerrarisCalibrationInfo where
  acc_unit : Option String := none
  gyr_unit : Option String := none
  from_acc_unit : Option String := none
  from_gyr_unit : Option String := none
  comment : Option String := none
  b_a : Vec3
  K_a : Mat3
  R_a : Mat3
  b_g : Vec3
  K_g : Mat3
  R_g : Mat3
  K_ga : Mat3

/-- Modelled from the spec: `FerrarisCalibrationInfo.calibrate_acc`
(file `ferraris_calibration_info.py` is not in src).  Spec §4.3:
`true_acc = R_a⁻¹ · K_a⁻¹ · (acc_raw - b_a)`, applied per sample. -/
def calibrate_acc (b_a : Vec3) (K_a R_a : Mat3) (l : List Vec3) : List Vec3 :=
  l.map fun a => R_a⁻¹.mulVec (K_a⁻¹.mulVec (a - b_a))

/-- Modelled from the spec: `FerrarisCalibrationInfo._calibrate_gyro_offsets`
(file `ferraris_calibration_info.py` is not in src).  Spec §4.3:
`gyro_offset_free = gyro_raw - b_g - K_ga · acc_calibrated`, sample by sample. -/
def calibrate_gyro_offsets (b_g : Vec3) (K_ga : Mat3) (gyr acc : List Vec3) : List Vec3 :=
  List.zipWith (fun g a => g - b_g - K_ga.mulVec a) gyr acc

/-- The eighteen segment arrays of a `FerrarisCalibration` object once all of
them are present (the materialized form used by `compute_calibration_matrix`),
together with the three scalar attributes. -/
structure FerrarisInput where
  acc_x_p : List Vec3
  acc_x_a : List Vec3
  acc_y_p : List Vec3
  acc_y_a : List Vec3
  acc_z_p : List Vec3
  acc_z_a : List Vec3
  gyr_x_p : List Vec3
  gyr_x_a : List Vec3
  gyr_y_p : List Vec3
  gyr_y_a : List Vec3
  gyr_z_p : List Vec3
  gyr_z_a : List Vec3
  acc_x_rot : List Vec3
  acc_y_rot : List Vec3
  acc_z_rot : List Vec3
  gyr_x_rot : List Vec3
  gyr_y_rot : List Vec3
  gyr_z_rot : List Vec3
  sampling_rate : ℝ
  grav : ℝ
  expected_angle : ℝ

namespace Ferraris

/-- Positive static accelerometer segments, indexed by axis. -/
def accP (s : FerrarisInput) : Fin 3 → List Vec3 := ![s.acc_x_p, s.acc_y_p, s.acc_z_p]

/-- Negative ("anti") static accelerometer segments, indexed by axis. -/
def accA (s : FerrarisInput) : Fin 3 → List Vec3 := ![s.acc_x_a, s.acc_y_a, s.acc_z_a]

/-- Positive static gyroscope segments, indexed by axis. -/
def gyrP (s : FerrarisInput) : Fin 3 → List Vec3 := ![s.gyr_x_p, s.gyr_y_p, s.gyr_z_p]

/-- Negative static gyroscope segments, indexed by axis. -/
def gyrA (s : FerrarisInput) : Fin 3 → List Vec3 := ![s.gyr_x_a, s.gyr_y_a, s.gyr_z_a]

/-- Rotation accelerometer segments, indexed by axis. -/
def accRot (s : FerrarisInput) : Fin 3 → List Vec3 := ![s.acc_x_rot, s.acc_y_rot, s.acc_z_rot]

/-- Rotation gyroscope segments, indexed by axis. -/
def gyrRot (s : FerrarisInput) : Fin 3 → List Vec3 := ![s.gyr_x_rot, s.gyr_y_rot, s.gyr_z_rot]

/-- Embeds `U_a_p` (ferraris_calibration.py lines 128-132): static means stacked as
rows then transposed, so column `j` is the mean of the positive static
segment of axis `j`. -/
def U_a_p (s : FerrarisInput) : Mat3 := Matrix.of fun i j => vecMean (accP s j) i

/-- Embeds `U_a_n` (lines 133-137). -/
def U_a_n (s : FerrarisInput) : Mat3 := Matrix.of fun i j => vecMean (accA s j) i

/-- Embeds `B_a = (U_a_p + U_a_n) / 2` (lines 140-144). -/
def B_a (s : FerrarisInput) : Mat3 := ((1 : ℝ)/2) • (U_a_p s + U_a_n s)

/-- Embeds `b_a = np.diag(B_a)` (line 147). -/
def b_a (s : FerrarisInput) : Vec3 := fun i => B_a s i i

/-- Embeds `U_a_d = U_a_p - U_a_n` (line 153). -/
def U_a_d (s : FerrarisInput) : Mat3 := U_a_p s - U_a_n s

/-- Embeds `k_a_sq = 1 / (4 * grav ** 2) * np.diag(U_a_d @ U_a_d.T)` (line 157). -/
def k_a_sq (s : FerrarisInput) : Vec3 :=
  fun i => (1 / (4 * s.grav ^ 2)) * ((U_a_d s * (U_a_d s)ᵀ) i i)

/-- Embeds `K_a = np.diag(np.sqrt(k_a_sq))` (line 158). -/
def K_a (s : FerrarisInput) : Mat3 := Matrix.diagonal fun i => Real.sqrt (k_a_sq s i)

/-- Embeds `R_a = inv(K_a) @ U_a_d / (2 * grav)` (line 163). -/
def R_a (s : FerrarisInput) : Mat3 := (1 / (2 * s.grav)) • ((K_a s)⁻¹ * U_a_d s)

/-- Embeds `b_g`: mean over the rows of all six static gyro segments stacked
together (lines 173-180) — a pooled mean over samples, not a mean of means. -/
def b_g (s : FerrarisInput) : Vec3 :=
  vecMean (s.gyr_x_p ++ s.gyr_x_a ++ s.gyr_y_p ++ s.gyr_y_a ++ s.gyr_z_p ++ s.gyr_z_a)

/-- Embeds `U_g_p` (lines 187-191). -/
def U_g_p (s : FerrarisInput) : Mat3 := Matrix.of fun i j => vecMean (gyrP s j) i

/-- Embeds `U_g_a` (lines 192-196). -/
def U_g_a (s : FerrarisInput) : Mat3 := Matrix.of fun i j => vecMean (gyrA s j) i

/-- Embeds `K_ga = (U_g_p - U_g_a) / (2 * grav)` (line 199). -/
def K_ga (s : FerrarisInput) : Mat3 := (1 / (2 * s.grav)) • (U_g_p s - U_g_a s)

/-- Lines 205-207: the rotation-segment acceleration corrected with the
partial record (`cal_mat.calibrate_acc`). -/
def accRotCor (s : FerrarisInput) (j : Fin 3) : List Vec3 :=
  calibrate_acc (b_a s) (K_a s) (R_a s) (accRot s j)

/-- Lines 208-210: offset-free rotation gyro segments
(`cal_mat._calibrate_gyro_offsets`). -/
def gyrRotCor (s : FerrarisInput) (j : Fin 3) : List Vec3 :=
  calibrate_gyro_offsets (b_g s) (K_ga s) (gyrRot s j) (accRotCor s j)

/-- Embeds `W_s` (lines 214-217): column `j` is `np.sum(gyr_j_rot_cor, axis=0) / sampling_rate`. -/
def W_s (s : FerrarisInput) : Mat3 :=
  Matrix.of fun i j => vecSum (gyrRotCor s j) i / s.sampling_rate

/-- Embeds `expected_angles = expected_angle * np.identity(3)` (line 220). -/
def expected_angles (s : FerrarisInput) : Mat3 := s.expected_angle • (1 : Mat3)

/-- Embeds `multiplied = W_s @ inv(expected_angles)` (line 221). -/
def multiplied (s : FerrarisInput) : Mat3 := W_s s * (expected_angles s)⁻¹

/-- Embeds `k_g_sq = np.diag(multiplied @ multiplied.T)` (line 224). -/
def k_g_sq (s : FerrarisInput) : Vec3 := fun i => (multiplied s * (multiplied s)ᵀ) i i

/-- Embeds `K_g = np.diag(np.sqrt(k_g_sq))` (line 225). -/
def K_g (s : FerrarisInput) : Mat3 := Matrix.diagonal fun i => Real.sqrt (k_g_sq s i)

/-- Embeds `R_g = inv(K_g) @ multiplied` (line 228). -/
def R_g (s : FerrarisInput) : Mat3 := (K_g s)⁻¹ * multiplied s

/-- The record assembled by `compute_calibration_matrix` (metadata fields
keep the dataclass defaults `None`). -/
def ferrarisOut (s : FerrarisInput) : FerrarisCalibrationInfo :=
  { b_a := b_a s, K_a := K_a s, R_a := R_a s,
    b_g := b_g s, K_g := K_g s, R_g := R_g s, K_ga := K_ga s }

/-- Embeds `compute_calibration_matrix` on a fully materialized input.
`np.linalg.inv` raises `LinAlgError` exactly on a singular argument; the
three inversions happen in source order: `inv(K_a)` (line 163),
`inv(expected_angles)` (line 221), `inv(K_g)` (line 228).  When none is
singular the returned record is `ferrarisOut`. -/
def computeOnInput (s : FerrarisInput) : Except String FerrarisCalibrationInfo :=
  if (K_a s).det = 0 then .error "LinAlgError: Singular matrix"
  else if (expected_angles s).det = 0 then .error "LinAlgError: Singular matrix"
  else if (K_g s).det = 0 then .error "LinAlgError: Singular matrix"
  else .ok (ferrarisOut s)

end Ferraris

/-- The state of a `FerrarisCalibration` object as produced by `__init__`
(lines 50-58): every segment attribute is either an array or `None`
(`kwargs.get(field, None)`). -/
structure FerrarisCalibration where
  acc_x_p : Option (List Vec3)
  acc_x_a : Option (List Vec3)
  acc_y_p : Option (List Vec3)
  acc_y_a : Option (List Vec3)
  acc_z_p : Option (List Vec3)
  acc_z_a : Option (List Vec3)
  gyr_x_p : Option (List Vec3)
  gyr_x_a : Option (List Vec3)
  gyr_y_p : Option (List Vec3)
  gyr_y_a : Option (List Vec3)
  gyr_z_p : Option (List Vec3)
  gyr_z_a : Option (List Vec3)
  acc_x_rot : Option (List Vec3)
  acc_y_rot : Option (List Vec3)
  acc_z_rot : Option (List Vec3)
  gyr_x_rot : Option (List Vec3)
  gyr_y_rot : Option (List Vec3)
  gyr_z_rot : Option (List Vec3)
  sampling_rate : ℝ
  grav : ℝ
  expected_angle : ℝ

/-- The keyword arguments of `FerrarisCalibration.__init__`: one optional
array per segment field; a missing keyword is `None`. -/
structure SegKwargs where
  acc_x_p : Option (List Vec3) := none
  acc_x_a : Option (List Vec3) := none
  acc_y_p : Option (List Vec3) := none
  acc_y_a : Option (List Vec3) := none
  acc_z_p : Option (List Vec3) := none
  acc_z_a : Option (List Vec3) := none
  gyr_x_p : Option (List Vec3) := none
  gyr_x_a : Option (List Vec3) := none
  gyr_y_p : Option (List Vec3) := none
  gyr_y_a : Option (List Vec3) := none
  gyr_z_p : Option (List Vec3) := none
  gyr_z_a : Option (List Vec3) := none
  acc_x_rot : Option (List Vec3) := none
  acc_y_rot : Option (List Vec3) := none
  acc_z_rot : Option (List Vec3) := none
  gyr_x_rot : Option (List Vec3) := none
  gyr_y_rot : Option (List Vec3) := none
  gyr_z_rot : Option (List Vec3) := none

/-- Python `x or default` for an optional float argument: `None` and the
falsy float `0.0` are both replaced by the default. -/
def pyOr (x : Option ℝ) (default : ℝ) : ℝ :=
  match x with
  | none => default
  | some v => if v = 0 then default else v

/-- Embeds `FerrarisCalibration.DEFAULT_GRAV` (line 41). -/
def DEFAULT_GRAV : ℝ := 9.81

/-- Embeds `FerrarisCalibration.EXPECTED_ANGLE` (line 40). -/
def EXPECTED_ANGLE : ℝ := 360

/-- Embeds `FerrarisCalibration.__init__` (lines 50-58): stores each segment kwarg
(or `None`), the sampling rate, and `grav or DEFAULT_GRAV`,
`expected_angle or EXPECTED_ANGLE`. -/
def FerrarisCalibration.init (sampling_rate : ℝ) (grav expected_angle : Option ℝ)
    (kw : SegKwargs) : FerrarisCalibration :=
  { acc_x_p := kw.acc_x_p, acc_x_a := kw.acc_x_a,
    acc_y_p := kw.acc_y_p, acc_y_a := kw.acc_y_a,
    acc_z_p := kw.acc_z_p, acc_z_a := kw.acc_z_a,
    gyr_x_p := kw.gyr_x_p, gyr_x_a := kw.gyr_x_a,
    gyr_y_p := kw.gyr_y_p, gyr_y_a := kw.gyr_y_a,
    gyr_z_p := kw.gyr_z_p, gyr_z_a := kw.gyr_z_a,
    acc_x_rot := kw.acc_x_rot, acc_y_rot := kw.acc_y_rot, acc_z_rot := kw.acc_z_rot,
    gyr_x_rot := kw.gyr_x_rot, gyr_y_rot := kw.gyr_y_rot, gyr_z_rot := kw.gyr_z_rot,
    sampling_rate := sampling_rate,
    grav := pyOr grav DEFAULT_GRAV,
    expected_angle := pyOr expected_angle EXPECTED_ANGLE }

/-- Accessing a segment attribute inside `compute_calibration_matrix`:
`np.mean(None, axis=0)` (and the analogous vstack/sum calls) raise a
`TypeError`/`AxisError` when the attribute is `None`. -/
def requireSeg (x : Option (List Vec3)) : Except String (List Vec3) :=
  match x with
  | none => .error "TypeError: segment attribute is None"
  | some l => .ok l

/-- Materialize all eighteen segment attributes, failing on the first one
that is `None` — every one of them is consumed by
`compute_calibration_matrix`, so a single missing attribute aborts the
computation before a record is produced. -/
def FerrarisCalibration.materialize (s : FerrarisCalibration) : Except String FerrarisInput := do
  let acc_x_p ← requireSeg s.acc_x_p
  let acc_x_a ← requireSeg s.acc_x_a
  let acc_y_p ← requireSeg s.acc_y_p
  let acc_y_a ← requireSeg s.acc_y_a
  let acc_z_p ← requireSeg s.acc_z_p
  let acc_z_a ← requireSeg s.acc_z_a
  let gyr_x_p ← requireSeg s.gyr_x_p
  let gyr_x_a ← requireSeg s.gyr_x_a
  let gyr_y_p ← requireSeg s.gyr_y_p
  let gyr_y_a ← requireSeg s.gyr_y_a
  let gyr_z_p ← requireSeg s.gyr_z_p
  let gyr_z_a ← requireSeg s.gyr_z_a
  let acc_x_rot ← requireSeg s.acc_x_rot
  let acc_y_rot ← requireSeg s.acc_y_rot
  let acc_z_rot ← requireSeg s.acc_z_rot
  let gyr_x_rot ← requireSeg s.gyr_x_rot
  let gyr_y_rot ← requireSeg s.gyr_y_rot
  let gyr_z_rot ← requireSeg s.gyr_z_rot
  return { acc_x_p := acc_x_p, acc_x_a := acc_x_a,
           acc_y_p := acc_y_p, acc_y_a := acc_y_a,
           acc_z_p := acc_z_p, acc_z_a := acc_z_a,
           gyr_x_p := gyr_x_p, gyr_x_a := gyr_x_a,
           gyr_y_p := gyr_y_p, gyr_y_a := gyr_y_a,
           gyr_z_p := gyr_z_p, gyr_z_a := gyr_z_a,
           acc_x_rot := acc_x_rot, acc_y_rot := acc_y_rot, acc_z_rot := acc_z_rot,
           gyr_x_rot := gyr_x_rot, gyr_y_rot := gyr_y_rot, gyr_z_rot := gyr_z_rot,
           sampling_rate := s.sampling_rate, grav := s.grav,
           expected_angle := s.expected_angle }

/-- Embeds `FerrarisCalibration.compute_calibration_matrix` (lines 120-231) at the
session level: accessing a missing (`None`) segment raises, then the numeric
pipeline runs with its three checked inversions. -/
def FerrarisCalibration.compute_calibration_matrix (s : FerrarisCalibration) :
    Except String FerrarisCalibrationInfo :=
  (s.materialize).bind Ferraris.computeOnInput

/-- Validity of a nine-segment input (spec §3): all eighteen segment arrays
are non-empty, and each rotation segment has as many gyroscope samples as
accelerometer samples (they are cut from the same rows of the session table). -/
def FerrarisInput.Valid (s : FerrarisInput) : Prop :=
  0 < s.acc_x_p.length ∧ 0 < s.acc_x_a.length ∧
  0 < s.acc_y_p.length ∧ 0 < s.acc_y_a.length ∧
  0 < s.acc_z_p.length ∧ 0 < s.acc_z_a.length ∧
  0 < s.gyr_x_p.length ∧ 0 < s.gyr_x_a.length ∧
  0 < s.gyr_y_p.length ∧ 0 < s.gyr_y_a.length ∧
  0 < s.gyr_z_p.length ∧ 0 < s.gyr_z_a.length ∧
  0 < s.acc_x_rot.length ∧ 0 < s.acc_y_rot.length ∧ 0 < s.acc_z_rot.length ∧
  s.gyr_x_rot.length = s.acc_x_rot.length ∧
  s.gyr_y_rot.length = s.acc_y_rot.length ∧
  s.gyr_z_rot.length = s.acc_z_rot.length

/-! ## The subclass registry (`calibration_info.py` lines 134-143) -/

/-- A node of the runtime class hierarchy below `CalibrationInfo`: the class
tag (`CAL_TYPE`) and the list of direct subclasses. -/
inductive CalClassTree where
  | node : String → List CalClassTree → CalClassTree

/-- Embeds `CAL_TYPE` of a class node. -/
def CalClassTree.tag : CalClassTree → String
  | .node t _ => t

/-- Direct subclasses of a class node (`cls.__subclasses__()`). -/
def CalClassTree.children : CalClassTree → List CalClassTree
  | .node _ cs => cs

mutual

/-- Embeds `CalibrationInfo._get_subclasses` (lines 134-138): for each direct
subclass, yield its own subclasses recursively, then the subclass itself. -/
def getSubclasses : CalClassTree → List CalClassTree
  | .node _ cs => getSubclassesList cs

/-- The generator body iterated over a list of direct subclasses. -/
def getSubclassesList : List CalClassTree → List CalClassTree
  | [] => []
  | c :: rest => (getSubclasses c ++ [c]) ++ getSubclassesList rest

end

/-- Embeds `CalibrationInfo.find_subclass_from_cal_type` (lines 140-143):
`next(x for x in _get_subclasses() if x.CAL_TYPE == cal_type)`; the bare
`next` raises `StopIteration` when nothing matches, modelled as `none`. -/
def find_subclass_from_cal_type (root : CalClassTree) (cal_type : String) :
    Option CalClassTree :=
  (getSubclasses root).find? fun c => c.tag == cal_type

/-- The registry of this repository: `CalibrationInfo` with the single
concrete subclass from `ferraris_calibration_info.py` (absent from src;
its `CAL_TYPE` string is modelled from the spec and from the docstring
example `cal_type: 'Ferraris'` in `calibration_info.py` line 43). -/
def calRegistry : CalClassTree := .node "CalibrationInfo" [.node "Ferraris" []]

/-! ## JSON serialization (`calibration_info.py` lines 123-167)

`json.dumps` followed by `json.loads` is the identity on the values this
code produces (finite floats, strings, nested lists, null), so the text
layer is modelled away and serialization is stated on the parsed JSON
tree. -/

/-- A parsed JSON value; numbers carry the idealized real value. -/
inductive JVal where
  | jnull : JVal
  | jstr : String → JVal
  | jnum : ℝ → JVal
  | jarr : List JVal → JVal
  | jobj : List (String × JVal) → JVal

/-- An optional string field as emitted by `asdict` + `json.dumps`. -/
def encStr : Option String → JVal
  | none => .jnull
  | some s => .jstr s

/-- Reading back an optional string field. -/
def decStr : JVal → Except String (Option String)
  | .jnull => .ok none
  | .jstr s => .ok (some s)
  | _ => .error "TypeError: expected string or null"

/-- Embeds `np.ndarray.tolist` on a 3-vector. -/
def vecToJson (v : Vec3) : JVal := .jarr ((List.finRange 3).map fun i => .jnum (v i))

/-- Embeds `np.ndarray.tolist` on a 3x3 matrix (list of rows). -/
def matToJson (M : Mat3) : JVal := .jarr ((List.finRange 3).map fun i => vecToJson (M i))

/-- Embeds `np.array` on a parsed JSON value expected to be a 3-vector. -/
def jsonToVec : JVal → Except String Vec3
  | .jarr [.jnum a, .jnum b, .jnum c] => .ok ![a, b, c]
  | _ => .error "ValueError: expected a length-3 numeric list"

/-- Embeds `np.array` on a parsed JSON value expected to be a 3x3 matrix. -/
def jsonToMat : JVal → Except String Mat3
  | .jarr [r1, r2, r3] => do
      let v1 ← jsonToVec r1
      let v2 ← jsonToVec r2
      let v3 ← jsonToVec r3
      return Matrix.of ![v1, v2, v3]
  | _ => .error "ValueError: expected a 3x3 numeric list"

/-- Embeds `CalibrationInfo._to_list_dict` (lines 123-126): `asdict(self)` in
dataclass field order, then the `cal_type` entry. -/
def to_list_dict (r : FerrarisCalibrationInfo) : List (String × JVal) :=
  [("acc_unit", encStr r.acc_unit),
   ("gyr_unit", encStr r.gyr_unit),
   ("from_acc_unit", encStr r.from_acc_unit),
   ("from_gyr_unit", encStr r.from_gyr_unit),
   ("comment", encStr r.comment),
   ("b_a", vecToJson r.b_a),
   ("K_a", matToJson r.K_a),
   ("R_a", matToJson r.R_a),
   ("b_g", vecToJson r.b_g),
   ("K_g", matToJson r.K_g),
   ("R_g", matToJson r.R_g),
   ("K_ga", matToJson r.K_ga),
   ("cal_type", .jstr "Ferraris")]

/-- Embeds `CalibrationInfo.to_json` (lines 145-148), up to the modelled-away
text layer: the parsed form of the emitted JSON string. -/
def to_json (r : FerrarisCalibrationInfo) : JVal := .jobj (to_list_dict r)

/-- Dictionary lookup (`list_dict[k]`); a missing key raises `KeyError`
(for the `_cal_paras` conversions) or `TypeError` (missing constructor
argument). -/
def jlook (kvs : List (String × JVal)) (k : String) : Except String JVal :=
  match kvs.find? (fun p => p.1 == k) with
  | some p => .ok p.2
  | none => .error "KeyError: missing field"

/-- Embeds `FerrarisCalibrationInfo._from_list_dict` (lines 128-132) for the
Ferraris subclass: every name in `_cal_paras` (modelled from the spec:
the seven parameter fields of `ferraris_calibration_info.py`, absent from
src) is converted with `np.array`, then the constructor is called with all
fields.  Extra unexpected keys would raise a `TypeError` in Python; the
serializer never produces any, so that check is not modelled. -/
def from_list_dict (kvs : List (String × JVal)) : Except String FerrarisCalibrationInfo := do
  let acc_unit ← decStr (← jlook kvs "acc_unit")
  let gyr_unit ← decStr (← jlook kvs "gyr_unit")
  let from_acc_unit ← decStr (← jlook kvs "from_acc_unit")
  let from_gyr_unit ← decStr (← jlook kvs "from_gyr_unit")
  let comment ← decStr (← jlook kvs "comment")
  let b_a ← jsonToVec (← jlook kvs "b_a")
  let K_a ← jsonToMat (← jlook kvs "K_a")
  let R_a ← jsonToMat (← jlook kvs "R_a")
  let b_g ← jsonToVec (← jlook kvs "b_g")
  let K_g ← jsonToMat (← jlook kvs "K_g")
  let R_g ← jsonToMat (← jlook kvs "R_g")
  let K_ga ← jsonToMat (← jlook kvs "K_ga")
  return { acc_unit := acc_unit, gyr_unit := gyr_unit,
           from_acc_unit := from_acc_unit, from_gyr_unit := from_gyr_unit,
           comment := comment,
           b_a := b_a, K_a := K_a, R_a := R_a,
           b_g := b_g, K_g := K_g, R_g := R_g, K_ga := K_ga }

/-- Embeds `CalibrationInfo.from_json` (lines 150-167): parse, pop `cal_type`,
resolve the subclass through the registry, delegate to `_from_list_dict`.
`Ferraris` is the only registered concrete subclass. -/
def from_json (j : JVal) : Except String FerrarisCalibrationInfo :=
  match j with
  | .jobj kvs => do
      let tagVal ← jlook kvs "cal_type"
      let tag ← match tagVal with
                | .jstr t => .ok t
                | _ => .error "TypeError: cal_type is not a string"
      match find_subclass_from_cal_type calRegistry tag with
      | none => .error "StopIteration"
      | some c =>
          if c.tag == "Ferraris" then from_list_dict kvs
          else .error "unmodelled subclass"
  | _ => .error "TypeError: not a JSON object"

/-! ## HDF5 serialization (`calibration_info.py` lines 201-252) -/

/-- An entry of the hierarchical (HDF5) container. -/
inductive HVal where
  | hs : String → HVal
  | hv : Vec3 → HVal
  | hm : Mat3 → HVal

/-- The entry written for a non-parameter field (lines 217-219):
`if value: hdf[k.name] = value` — `None` and the falsy empty string are
both silently omitted. -/
def hdfOptEntry (k : String) (o : Option String) : List (String × HVal) :=
  match o with
  | none => []
  | some s => if s = "" then [] else [(k, .hs s)]

/-- Embeds `CalibrationInfo.to_hdf5` (lines 201-220): iterate the dataclass
fields in order — parameter fields always become datasets, other fields
are written only when truthy — then store `cal_type`. -/
def to_hdf5 (r : FerrarisCalibrationInfo) : List (String × HVal) :=
  hdfOptEntry "acc_unit" r.acc_unit ++
  hdfOptEntry "gyr_unit" r.gyr_unit ++
  hdfOptEntry "from_acc_unit" r.from_acc_unit ++
  hdfOptEntry "from_gyr_unit" r.from_gyr_unit ++
  hdfOptEntry "comment" r.comment ++
  [("b_a", .hv r.b_a), ("K_a", .hm r.K_a), ("R_a", .hm r.R_a),
   ("b_g", .hv r.b_g), ("K_g", .hm r.K_g), ("R_g", .hm r.R_g),
   ("K_ga", .hm r.K_ga),
   ("cal_type", .hs "Ferraris")]

/-- Embeds `hdf.get(k.name)` on the container. -/
def hlook (c : List (String × HVal)) (k : String) : Option HVal :=
  (c.find? fun p => p.1 == k).map Prod.snd

/-- Reading a non-parameter field (lines 247-250): a present dataset is
truthy and yields its value, an absent one yields `None`. -/
def hReadOpt (c : List (String × HVal)) (k : String) : Option String :=
  match hlook c k with
  | some (.hs s) => some s
  | _ => none

/-- Reading a parameter field (`np.array(tmp)`, line 246) expected to be a
3-vector dataset.  (If the dataset were absent, `np.array(None)` would
produce a useless 0-d object array; `to_hdf5` always writes every
parameter, so this path is modelled as an error.) -/
def hReadVec (c : List (String × HVal)) (k : String) : Except String Vec3 :=
  match hlook c k with
  | some (.hv v) => .ok v
  | _ => .error "ValueError: parameter dataset missing"

/-- Reading a parameter field expected to be a 3x3 dataset. -/
def hReadMat (c : List (String × HVal)) (k : String) : Except String Mat3 :=
  match hlook c k with
  | some (.hm m) => .ok m
  | _ => .error "ValueError: parameter dataset missing"

/-- Embeds `CalibrationInfo.from_hdf5` (lines 222-252): read `cal_type`, resolve
the subclass, then rebuild every field — parameters through `np.array`,
the rest as present-scalar-or-`None`. -/
def from_hdf5 (c : List (String × HVal)) : Except String FerrarisCalibrationInfo := do
  let tag ← match hlook c "cal_type" with
            | some (.hs t) => .ok t
            | _ => .error "KeyError: cal_type"
  match find_subclass_from_cal_type calRegistry tag with
  | none => .error "StopIteration"
  | some cl =>
      if cl.tag == "Ferraris" then do
        let b_a ← hReadVec c "b_a"
        let K_a ← hReadMat c "K_a"
        let R_a ← hReadMat c "R_a"
        let b_g ← hReadVec c "b_g"
        let K_g ← hReadMat c "K_g"
        let R_g ← hReadMat c "R_g"
        let K_ga ← hReadMat c "K_ga"
        return { acc_unit := hReadOpt c "acc_unit",
                 gyr_unit := hReadOpt c "gyr_unit",
                 from_acc_unit := hReadOpt c "from_acc_unit",
                 from_gyr_unit := hReadOpt c "from_gyr_unit",
                 comment := hReadOpt c "comment",
                 b_a := b_a, K_a := K_a, R_a := R_a,
                 b_g := b_g, K_g := K_g, R_g := R_g, K_ga := K_ga }
      else .error "unmodelled subclass"

/-- Squash a falsy optional string to `None` — the net effect of the HDF5
round trip on a metadata field. -/
def squashFalsy (o : Option String) : Option String :=
  match o with
  | some s => if s = "" then none else some s
  | none => none

/-- A record with every metadata field squashed as the HDF5 round trip
leaves it. -/
def hdfNormalize (r : FerrarisCalibrationInfo) : FerrarisCalibrationInfo :=
  { r with acc_unit := squashFalsy r.acc_unit,
           gyr_unit := squashFalsy r.gyr_unit,
           from_acc_unit := squashFalsy r.from_acc_unit,
           from_gyr_unit := squashFalsy r.from_gyr_unit,
           comment := squashFalsy r.comment }

/-! ## Record equality (`calibration_info.py` lines 94-121)

The registry is open-ended (spec §4.1): new concrete `CalibrationInfo`
subclasses can be registered at any time.  Cross-subtype comparison is
exercised with a second, sibling concrete subclass modelled from the spec
(only its base metadata fields matter for `__eq__`). -/

/-- Modelled from the spec: a second registered concrete calibration
subtype, sibling of `FerrarisCalibrationInfo` (spec §4.1: the registry is
open-ended and populated whenever a subtype is defined).  Its parameter
list is a single bias vector; only its distinctness from the Ferraris
class matters for the equality semantics. -/
structure OtherCalibrationInfo where
  acc_unit : Option String := none
  gyr_unit : Option String := none
  from_acc_unit : Option String := none
  from_gyr_unit : Option String := none
  comment : Option String := none
  b : Vec3

/-- A calibration record together with its concrete runtime class. -/
inductive AnyCalInfo where
  | ferraris : FerrarisCalibrationInfo → AnyCalInfo
  | other : OtherCalibrationInfo → AnyCalInfo

/-- The concrete class (its `CAL_TYPE`) of a record. -/
def AnyCalInfo.calType : AnyCalInfo → String
  | .ferraris _ => "Ferraris"
  | .other _ => "Other"

/-- Field-by-field equality of two records of the Ferraris class: the
`__eq__` loop (lines 112-121) — `np.array_equal` on every parameter
array, `==` on every scalar field. -/
def ferrarisFieldsEq (a b : FerrarisCalibrationInfo) : Prop :=
  a.acc_unit = b.acc_unit ∧ a.gyr_unit = b.gyr_unit ∧
  a.from_acc_unit = b.from_acc_unit ∧ a.from_gyr_unit = b.from_gyr_unit ∧
  a.comment = b.comment ∧
  a.b_a = b.b_a ∧ a.K_a = b.K_a ∧ a.R_a = b.R_a ∧
  a.b_g = b.b_g ∧ a.K_g = b.K_g ∧ a.R_g = b.R_g ∧ a.K_ga = b.K_ga

/-- Field-by-field equality of two records of the sibling class. -/
def otherFieldsEq (a b : OtherCalibrationInfo) : Prop :=
  a.acc_unit = b.acc_unit ∧ a.gyr_unit = b.gyr_unit ∧
  a.from_acc_unit = b.from_acc_unit ∧ a.from_gyr_unit = b.from_gyr_unit ∧
  a.comment = b.comment ∧ a.b = b.b

/-- Embeds `CalibrationInfo.__eq__` (lines 94-121) on records of concrete sibling
subtypes: `isinstance(other, self.__class__)` fails across the two sibling
classes, raising `ValueError`; within one class the field set and
`CAL_TYPE` coincide and the comparison is the field loop. -/
def calEq : AnyCalInfo → AnyCalInfo → Except String Prop
  | .ferraris a, .ferraris b => .ok (ferrarisFieldsEq a b)
  | .other a, .other b => .ok (otherFieldsEq a b)
  | _, _ => .error "ValueError: Comparison is only defined between two objects of the same class"

/-! ## `load_calibration_info` (`calibration_info.py` lines 255-297) -/

/-- Embeds `pathlib.PurePath.suffix`: the substring of the file name from the
last dot on, provided that dot is neither the leading character nor the
last one; otherwise the empty string.  Note the result always contains
its leading dot. -/
def pathSuffix (name : String) : String :=
  let cs := name.data
  match ((List.range cs.length).filter fun k => cs.getD k ' ' = '.').getLast? with
  | some i => if 0 < i ∧ i + 1 < cs.length then ⟨cs.drop i⟩ else ""
  | none => ""

/-- The format-resolution logic of `load_calibration_info` (lines 282-297):
with no explicit format the suffix is compared against the bare strings
`"json"`, `"hdf"`, `"h5"`; an explicit format must be a key of
`format_options`.  Returns which loader would be dispatched. -/
def load_calibration_info_format (name : String) (format : Option String) :
    Except String String :=
  let resolved : Except String String :=
    match format with
    | none =>
        let suffix := pathSuffix name
        if suffix = "json" then .ok "json"
        else if suffix = "hdf" ∨ suffix = "h5" then .ok "hdf"
        else .error "ValueError: The loader format could not be determined from the file suffix. Please specify format explicitly."
    | some f => .ok f
  match resolved with
  | .error e => .error e
  | .ok f =>
      if f = "json" ∨ f = "hdf" then .ok f
      else .error "ValueError: format must be one of [json, hdf]"

/-! ## Spec-side formulations (written from the words of the spec/claims) -/

namespace FerrarisSpec

open Ferraris (accP accA accRot gyrRot)

/-- Spec step 1: the 3x3 matrix whose columns are the per-axis means of the
positive static segments. -/
def U_p (s : FerrarisInput) : Mat3 := Matrix.of fun i j => vecMean (accP s j) i

/-- Spec step 1: columns are the means of the negative static segments. -/
def U_n (s : FerrarisInput) : Mat3 := Matrix.of fun i j => vecMean (accA s j) i

/-- Spec: bias vector = diagonal of `(U_p + U_n) / 2`. -/
def spec_b_a (s : FerrarisInput) : Vec3 := fun i => (((1 : ℝ)/2) • (U_p s + U_n s)) i i

/-- Spec: `K_a` = diagonal matrix of the square roots of the diagonal of
`(U_p - U_n)(U_p - U_n)ᵀ / (4·gravity²)`. -/
def spec_K_a (s : FerrarisInput) : Mat3 :=
  Matrix.diagonal fun i =>
    Real.sqrt ((((U_p s - U_n s) * (U_p s - U_n s)ᵀ) i i) / (4 * s.grav ^ 2))

/-- Spec: `R_a = K_a⁻¹ · (U_p - U_n) / (2·gravity)`. -/
def spec_R_a (s : FerrarisInput) : Mat3 :=
  (spec_K_a s)⁻¹ * (((1 : ℝ)/(2 * s.grav)) • (U_p s - U_n s))

/-- Spec step 4, first stage: the rotation segment acceleration corrected
with the already-estimated accelerometer transform (the forward acc
transform of step 1's matrices). -/
def accCalibrated (s : FerrarisInput) (j : Fin 3) : List Vec3 :=
  calibrate_acc (Ferraris.b_a s) (Ferraris.K_a s) (Ferraris.R_a s) (accRot s j)

/-- Spec step 4, second stage: `gyro_offset_free = gyro_raw - b_g - K_ga · acc_calibrated`
sample by sample. -/
def gyroOffsetFree (s : FerrarisInput) (j : Fin 3) : List Vec3 :=
  List.zipWith (fun g a => g - Ferraris.b_g s - (Ferraris.K_ga s).mulVec a)
    (gyrRot s j) (accCalibrated s j)

/-- Spec step 4, third stage: integrate each offset-free rotation segment
over time — sum of samples divided by the sampling rate — as one column of
`W`. -/
def spec_W (s : FerrarisInput) : Mat3 :=
  Matrix.of fun i j => vecSum (gyroOffsetFree s j) i / s.sampling_rate

/-- Spec: `M = W · expected_angle_matrix⁻¹` with the expected-angle matrix
diagonal with `expected_rotation_angle` on each entry. -/
def spec_M (s : FerrarisInput) : Mat3 :=
  spec_W s * (Matrix.diagonal fun _ => s.expected_angle)⁻¹

/-- Spec: `K_g` = diagonal matrix of the square roots of the diagonal of
`M·Mᵀ`. -/
def spec_K_g (s : FerrarisInput) : Mat3 :=
  Matrix.diagonal fun i => Real.sqrt ((spec_M s * (spec_M s)ᵀ) i i)

/-- Spec: `R_g = K_g⁻¹ · M`. -/
def spec_R_g (s : FerrarisInput) : Mat3 := (spec_K_g s)⁻¹ * spec_M s

end FerrarisSpec

/-! ## Equations between the code pipeline and the spec formulas -/

theorem Ferraris.K_a_eq_spec (s : FerrarisInput) : Ferraris.K_a s = FerrarisSpec.spec_K_a s := by
  have h : ∀ i, Ferraris.k_a_sq s i =
      (((FerrarisSpec.U_p s - FerrarisSpec.U_n s) *
        (FerrarisSpec.U_p s - FerrarisSpec.U_n s)ᵀ) i i) / (4 * s.grav ^ 2) := by
    intro i
    show (1 / (4 * s.grav ^ 2)) * ((Ferraris.U_a_d s * (Ferraris.U_a_d s)ᵀ) i i) = _
    rw [one_div_mul_eq_div]
    rfl
  show Matrix.diagonal _ = Matrix.diagonal _
  exact congrArg Matrix.diagonal (funext fun i => congrArg Real.sqrt (h i))

theorem Ferraris.R_a_eq_spec (s : FerrarisInput) : Ferraris.R_a s = FerrarisSpec.spec_R_a s := by
  unfold Ferraris.R_a FerrarisSpec.spec_R_a
  rw [Matrix.mul_smul, Ferraris.K_a_eq_spec]
  rfl

theorem Ferraris.b_a_eq_spec (s : FerrarisInput) : Ferraris.b_a s = FerrarisSpec.spec_b_a s := rfl

theorem Ferraris.W_eq_spec (s : FerrarisInput) : Ferraris.W_s s = FerrarisSpec.spec_W s := rfl

theorem Ferraris.M_eq_spec (s : FerrarisInput) :
    Ferraris.multiplied s = FerrarisSpec.spec_M s := by
  unfold Ferraris.multiplied FerrarisSpec.spec_M Ferraris.expected_angles
  rw [Matrix.smul_one_eq_diagonal]
  rfl

theorem Ferraris.K_g_eq_spec (s : FerrarisInput) : Ferraris.K_g s = FerrarisSpec.spec_K_g s := by
  unfold Ferraris.K_g FerrarisSpec.spec_K_g Ferraris.k_g_sq
  rw [Ferraris.M_eq_spec]

theorem Ferraris.R_g_eq_spec (s : FerrarisInput) : Ferraris.R_g s = FerrarisSpec.spec_R_g s := by
  unfold Ferraris.R_g FerrarisSpec.spec_R_g
  rw [Ferraris.M_eq_spec, Ferraris.K_g_eq_spec]

/-! ## Properties of the subclass enumeration -/

theorem getSubclassesList_mem_of_mem {cs : List CalClassTree} {m : CalClassTree}
    (h : m ∈ cs) : m ∈ getSubclassesList cs := by
  induction cs with
  | nil => cases h
  | cons x rest ih =>
      rw [getSubclassesList]
      rcases List.mem_cons.mp h with rfl | hrest
      · exact List.mem_append.mpr (Or.inl (List.mem_append.mpr (Or.inr (List.mem_singleton.mpr rfl))))
      · exact List.mem_append.mpr (Or.inr (ih hrest))

theorem getSubclasses_children_sub {p m : CalClassTree} (h : m ∈ p.children) :
    m ∈ getSubclasses p := by
  cases p with
  | node t cs => rw [getSubclasses]; exact getSubclassesList_mem_of_mem h

theorem getSubclassesList_trans_aux :
    ∀ (n : Nat) (cs : List CalClassTree), sizeOf cs ≤ n →
      ∀ c m, m ∈ getSubclassesList cs → c ∈ getSubclasses m → c ∈ getSubclassesList cs := by
  intro n
  induction n with
  | zero =>
      intro cs hcs c m hm _
      cases cs with
      | nil => rw [getSubclassesList] at hm; cases hm
      | cons x rest => simp only [List.cons.sizeOf_spec] at hcs; omega
  | succ n ih =>
      intro cs hcs c m hm hc
      cases cs with
      | nil => rw [getSubclassesList] at hm; cases hm
      | cons x rest =>
          rw [getSubclassesList] at hm ⊢
          have hsize : sizeOf rest ≤ n ∧ sizeOf x.children ≤ n := by
            cases x with
            | node t cs' =>
                simp only [List.cons.sizeOf_spec, CalClassTree.node.sizeOf_spec,
                  CalClassTree.children] at hcs ⊢
                omega
          rcases List.mem_append.mp hm with hm1 | hm2
          · rcases List.mem_append.mp hm1 with hmx | hmself
            · -- m is a strict descendant of x
              have : c ∈ getSubclasses x := by
                cases x with
                | node t cs' =>
                    rw [getSubclasses] at hmx ⊢
                    exact ih cs' hsize.2 c m hmx hc
              exact List.mem_append.mpr (Or.inl (List.mem_append.mpr (Or.inl this)))
            · -- m = x
              have hx : m = x := List.mem_singleton.mp hmself
              subst hx
              exact List.mem_append.mpr (Or.inl (List.mem_append.mpr (Or.inl hc)))
          · exact List.mem_append.mpr (Or.inr (ih rest hsize.1 c m hm2 hc))

theorem getSubclasses_trans {p c m : CalClassTree}
    (hm : m ∈ getSubclasses p) (hc : c ∈ getSubclasses m) : c ∈ getSubclasses p := by
  cases p with
  | node t cs =>
      rw [getSubclasses] at hm ⊢
      exact getSubclassesList_trans_aux (sizeOf cs) cs le_rfl c m hm hc

theorem find?_eq_filter_head? {α : Type} (p : α → Bool) (l : List α) :
    l.find? p = (l.filter p).head? := by
  induction l with
  | nil => rfl
  | cons x rest ih =>
      by_cases hx : p x
      · rw [List.find?_cons_of_pos _ hx, List.filter_cons_of_pos hx, List.head?_cons]
      · rw [List.find?_cons_of_neg _ hx, List.filter_cons_of_neg hx, ih]

/-! ## Round-trip lemmas for the serialized forms -/

theorem vec3_eta (v : Vec3) : ![v 0, v 1, v 2] = v := by
  funext i
  fin_cases i <;> simp

theorem mat3_eta (M : Mat3) : Matrix.of ![M 0, M 1, M 2] = M := by
  funext i j
  have : (Matrix.of ![M 0, M 1, M 2]) i j = (![M 0, M 1, M 2]) i j := rfl
  rw [this]
  fin_cases i <;> simp

theorem decStr_encStr (o : Option String) : decStr (encStr o) = .ok o := by
  cases o <;> rfl

theorem jsonToVec_vecToJson (v : Vec3) : jsonToVec (vecToJson v) = .ok v := by
  show jsonToVec (.jarr [.jnum (v 0), .jnum (v 1), .jnum (v 2)]) = .ok v
  rw [jsonToVec, vec3_eta]

theorem jsonToMat_matToJson (M : Mat3) : jsonToMat (matToJson M) = .ok M := by
  show jsonToMat (.jarr [vecToJson (M 0), vecToJson (M 1), vecToJson (M 2)]) = .ok M
  rw [jsonToMat]
  simp only [jsonToVec_vecToJson, bind, Except.bind, pure, Except.pure]
  rw [mat3_eta]

theorem json_roundtrip (r : FerrarisCalibrationInfo) : from_json (to_json r) = .ok r := by
  show from_json (.jobj (to_list_dict r)) = .ok r
  rw [from_json]
  simp [to_list_dict, jlook, List.find?, find_subclass_from_cal_type, calRegistry,
    getSubclasses, getSubclassesList, from_list_dict, decStr_encStr,
    jsonToVec_vecToJson, jsonToMat_matToJson, CalClassTree.tag,
    bind, Except.bind, pure, Except.pure]

theorem find?_key_hdfOptEntry (k k' : String) (o : Option String) :
    (hdfOptEntry k o).find? (fun p => p.1 == k') =
      if k = k' then (squashFalsy o).map (fun s => (k, HVal.hs s)) else none := by
  cases o with
  | none => simp [hdfOptEntry, squashFalsy]
  | some s =>
      by_cases hs : s = ""
      · simp [hdfOptEntry, squashFalsy, hs]
      · by_cases hk : k = k'
        · simp [hdfOptEntry, squashFalsy, hs, hk, List.find?]
        · simp [hdfOptEntry, squashFalsy, hs, hk, List.find?]

theorem hReadOpt_squash (r : FerrarisCalibrationInfo) (k : String) (get : FerrarisCalibrationInfo → Option String)
    (h : hlook (to_hdf5 r) k = (squashFalsy (get r)).map HVal.hs) :
    hReadOpt (to_hdf5 r) k = squashFalsy (get r) := by
  rw [hReadOpt, h]
  cases squashFalsy (get r) <;> rfl

theorem hlook_to_hdf5_acc_unit (r : FerrarisCalibrationInfo) :
    hlook (to_hdf5 r) "acc_unit" = (squashFalsy r.acc_unit).map HVal.hs := by
  simp [to_hdf5, hlook, List.find?_append, find?_key_hdfOptEntry, List.find?, Option.map_map]
  rfl

theorem hlook_to_hdf5_gyr_unit (r : FerrarisCalibrationInfo) :
    hlook (to_hdf5 r) "gyr_unit" = (squashFalsy r.gyr_unit).map HVal.hs := by
  simp [to_hdf5, hlook, List.find?_append, find?_key_hdfOptEntry, List.find?, Option.map_map]
  rfl

theorem hlook_to_hdf5_from_acc_unit (r : FerrarisCalibrationInfo) :
    hlook (to_hdf5 r) "from_acc_unit" = (squashFalsy r.from_acc_unit).map HVal.hs := by
  simp [to_hdf5, hlook, List.find?_append, find?_key_hdfOptEntry, List.find?, Option.map_map]
  rfl

theorem hlook_to_hdf5_from_gyr_unit (r : FerrarisCalibrationInfo) :
    hlook (to_hdf5 r) "from_gyr_unit" = (squashFalsy r.from_gyr_unit).map HVal.hs := by
  simp [to_hdf5, hlook, List.find?_append, find?_key_hdfOptEntry, List.find?, Option.map_map]
  rfl

theorem hlook_to_hdf5_comment (r : FerrarisCalibrationInfo) :
    hlook (to_hdf5 r) "comment" = (squashFalsy r.comment).map HVal.hs := by
  simp [to_hdf5, hlook, List.find?_append, find?_key_hdfOptEntry, List.find?, Option.map_map]
  rfl

theorem hlook_to_hdf5_cal_type (r : FerrarisCalibrationInfo) :
    hlook (to_hdf5 r) "cal_type" = some (.hs "Ferraris") := by
  simp [to_hdf5, hlook, List.find?_append, find?_key_hdfOptEntry, List.find?]

theorem hReadVec_to_hdf5_b_a (r : FerrarisCalibrationInfo) :
    hReadVec (to_hdf5 r) "b_a" = .ok r.b_a := by
  simp [hReadVec, to_hdf5, hlook, List.find?_append, find?_key_hdfOptEntry, List.find?]

theorem hReadMat_to_hdf5_K_a (r : FerrarisCalibrationInfo) :
    hReadMat (to_hdf5 r) "K_a" = .ok r.K_a := by
  simp [hReadMat, to_hdf5, hlook, List.find?_append, find?_key_hdfOptEntry, List.find?]

theorem hReadMat_to_hdf5_R_a (r : FerrarisCalibrationInfo) :
    hReadMat (to_hdf5 r) "R_a" = .ok r.R_a := by
  simp [hReadMat, to_hdf5, hlook, List.find?_append, find?_key_hdfOptEntry, List.find?]

theorem hReadVec_to_hdf5_b_g (r : FerrarisCalibrationInfo) :
    hReadVec (to_hdf5 r) "b_g" = .ok r.b_g := by
  simp [hReadVec, to_hdf5, hlook, List.find?_append, find?_key_hdfOptEntry, List.find?]

theorem hReadMat_to_hdf5_K_g (r : FerrarisCalibrationInfo) :
    hReadMat (to_hdf5 r) "K_g" = .ok r.K_g := by
  simp [hReadMat, to_hdf5, hlook, List.find?_append, find?_key_hdfOptEntry, List.find?]

theorem hReadMat_to_hdf5_R_g (r : FerrarisCalibrationInfo) :
    hReadMat (to_hdf5 r) "R_g" = .ok r.R_g := by
  simp [hReadMat, to_hdf5, hlook, List.find?_append, find?_key_hdfOptEntry, List.find?]

theorem hReadMat_to_hdf5_K_ga (r : FerrarisCalibrationInfo) :
    hReadMat (to_hdf5 r) "K_ga" = .ok r.K_ga := by
  simp [hReadMat, to_hdf5, hlook, List.find?_append, find?_key_hdfOptEntry, List.find?]

theorem hdf5_roundtrip (r : FerrarisCalibrationInfo) :
    from_hdf5 (to_hdf5 r) = .ok (hdfNormalize r) := by
  rw [from_hdf5, hlook_to_hdf5_cal_type]
  simp [find_subclass_from_cal_type, calRegistry, getSubclasses, getSubclassesList,
    List.find?, CalClassTree.tag,
    hReadVec_to_hdf5_b_a, hReadMat_to_hdf5_K_a, hReadMat_to_hdf5_R_a,
    hReadVec_to_hdf5_b_g, hReadMat_to_hdf5_K_g, hReadMat_to_hdf5_R_g,
    hReadMat_to_hdf5_K_ga,
    hReadOpt_squash r "acc_unit" (fun x => x.acc_unit) (hlook_to_hdf5_acc_unit r),
    hReadOpt_squash r "gyr_unit" (fun x => x.gyr_unit) (hlook_to_hdf5_gyr_unit r),
    hReadOpt_squash r "from_acc_unit" (fun x => x.from_acc_unit) (hlook_to_hdf5_from_acc_unit r),
    hReadOpt_squash r "from_gyr_unit" (fun x => x.from_gyr_unit) (hlook_to_hdf5_from_gyr_unit r),
    hReadOpt_squash r "comment" (fun x => x.comment) (hlook_to_hdf5_comment r),
    hdfNormalize, bind, Except.bind, pure, Except.pure]

/-! ## Success and failure of `Except` computations -/

/-- The computation completed and returned a value (no exception). -/
def exceptOk {α : Type} : Except String α → Bool
  | .ok _ => true
  | .error _ => false

/-- The computation raised an exception. -/
def exceptError {α : Type} : Except String α → Bool
  | .ok _ => false
  | .error _ => true

theorem except_bind_ok {α β : Type} {x : Except String α} {f : α → Except String β} {b : β}
    (h : (x >>= f) = .ok b) : ∃ a, x = .ok a ∧ f a = .ok b := by
  cases x with
  | error e => simp [Bind.bind, Except.bind] at h
  | ok a => exact ⟨a, rfl, by simpa [Bind.bind, Except.bind] using h⟩

theorem requireSeg_ok {x : Option (List Vec3)} {l : List Vec3}
    (h : requireSeg x = .ok l) : x = some l := by
  cases x with
  | none => simp [requireSeg] at h
  | some v => simpa [requireSeg] using h

/-- One of the eighteen segment attributes of the session is `None`. -/
def FerrarisCalibration.SomeSegmentMissing (s : FerrarisCalibration) : Prop :=
  s.acc_x_p = none ∨ s.acc_x_a = none ∨ s.acc_y_p = none ∨ s.acc_y_a = none ∨
  s.acc_z_p = none ∨ s.acc_z_a = none ∨ s.gyr_x_p = none ∨ s.gyr_x_a = none ∨
  s.gyr_y_p = none ∨ s.gyr_y_a = none ∨ s.gyr_z_p = none ∨ s.gyr_z_a = none ∨
  s.acc_x_rot = none ∨ s.acc_y_rot = none ∨ s.acc_z_rot = none ∨
  s.gyr_x_rot = none ∨ s.gyr_y_rot = none ∨ s.gyr_z_rot = none

theorem materialize_ok_all_some {s : FerrarisCalibration} {inp : FerrarisInput}
    (h : s.materialize = .ok inp) : ¬ s.SomeSegmentMissing := by
  rw [FerrarisCalibration.materialize] at h
  obtain ⟨a1, h1, h⟩ := except_bind_ok h
  obtain ⟨a2, h2, h⟩ := except_bind_ok h
  obtain ⟨a3, h3, h⟩ := except_bind_ok h
  obtain ⟨a4, h4, h⟩ := except_bind_ok h
  obtain ⟨a5, h5, h⟩ := except_bind_ok h
  obtain ⟨a6, h6, h⟩ := except_bind_ok h
  obtain ⟨a7, h7, h⟩ := except_bind_ok h
  obtain ⟨a8, h8, h⟩ := except_bind_ok h
  obtain ⟨a9, h9, h⟩ := except_bind_ok h
  obtain ⟨a10, h10, h⟩ := except_bind_ok h
  obtain ⟨a11, h11, h⟩ := except_bind_ok h
  obtain ⟨a12, h12, h⟩ := except_bind_ok h
  obtain ⟨a13, h13, h⟩ := except_bind_ok h
  obtain ⟨a14, h14, h⟩ := except_bind_ok h
  obtain ⟨a15, h15, h⟩ := except_bind_ok h
  obtain ⟨a16, h16, h⟩ := except_bind_ok h
  obtain ⟨a17, h17, h⟩ := except_bind_ok h
  obtain ⟨a18, h18, h⟩ := except_bind_ok h
  rw [FerrarisCalibration.SomeSegmentMissing]
  simp [requireSeg_ok h1, requireSeg_ok h2, requireSeg_ok h3, requireSeg_ok h4,
    requireSeg_ok h5, requireSeg_ok h6, requireSeg_ok h7, requireSeg_ok h8,
    requireSeg_ok h9, requireSeg_ok h10, requireSeg_ok h11, requireSeg_ok h12,
    requireSeg_ok h13, requireSeg_ok h14, requireSeg_ok h15, requireSeg_ok h16,
    requireSeg_ok h17, requireSeg_ok h18]

theorem compute_error_of_missing {s : FerrarisCalibration}
    (h : s.SomeSegmentMissing) : exceptError (s.compute_calibration_matrix) = true := by
  rw [FerrarisCalibration.compute_calibration_matrix]
  cases hm : s.materialize with
  | error e => rfl
  | ok inp => exact absurd h (materialize_ok_all_some hm)

/-! ## Concrete sessions used as witnesses and counterexamples -/

/-- The zero sample. -/
def zeroV : Vec3 := fun _ => 0

theorem vecMean_singleton (v : Vec3) : vecMean [v] = v := by
  funext i
  simp [vecMean]

theorem vecMean_nil : vecMean [] = zeroV := by
  funext i
  simp [vecMean, zeroV]

/-- A clean synthetic session (spec §8 end-to-end example, with `gravity`
normalised to 1): static accelerometer segments read exactly `±1` on their
axis, static gyro segments are zero, each rotation gyro segment integrates
to exactly 360 about its axis at sampling rate 1.  The positive x static
segment is a parameter so that the same construction also yields the
empty-segment counterexample. -/
def niceInp (xp : List Vec3) : FerrarisInput :=
  { acc_x_p := xp, acc_x_a := [![-1, 0, 0]],
    acc_y_p := [![0, 1, 0]], acc_y_a := [![0, -1, 0]],
    acc_z_p := [![0, 0, 1]], acc_z_a := [![0, 0, -1]],
    gyr_x_p := [zeroV], gyr_x_a := [zeroV],
    gyr_y_p := [zeroV], gyr_y_a := [zeroV],
    gyr_z_p := [zeroV], gyr_z_a := [zeroV],
    acc_x_rot := [zeroV], acc_y_rot := [zeroV], acc_z_rot := [zeroV],
    gyr_x_rot := [![360, 0, 0]], gyr_y_rot := [![0, 360, 0]], gyr_z_rot := [![0, 0, 360]],
    sampling_rate := 1, grav := 1, expected_angle := 360 }

/-- The ideal nine-segment input. -/
def inpFull : FerrarisInput := niceInp [![1, 0, 0]]

/-- The same input with an empty positive x static segment. -/
def inpEmptyXp : FerrarisInput := niceInp []

/-- A degenerate input: every segment is a single zero sample, so the
positive and negative static readings coincide and every accelerometer
scale factor is zero. -/
def inp0 : FerrarisInput :=
  { acc_x_p := [zeroV], acc_x_a := [zeroV],
    acc_y_p := [zeroV], acc_y_a := [zeroV],
    acc_z_p := [zeroV], acc_z_a := [zeroV],
    gyr_x_p := [zeroV], gyr_x_a := [zeroV],
    gyr_y_p := [zeroV], gyr_y_a := [zeroV],
    gyr_z_p := [zeroV], gyr_z_a := [zeroV],
    acc_x_rot := [zeroV], acc_y_rot := [zeroV], acc_z_rot := [zeroV],
    gyr_x_rot := [zeroV], gyr_y_rot := [zeroV], gyr_z_rot := [zeroV],
    sampling_rate := 1, grav := 1, expected_angle := 360 }

theorem U_a_n_nice (xp : List Vec3) : Ferraris.U_a_n (niceInp xp) = -1 := by
  ext i j
  fin_cases i <;> fin_cases j <;>
    simp [Ferraris.U_a_n, Ferraris.accA, niceInp, vecMean_singleton, Matrix.one_apply]

theorem U_a_p_full : Ferraris.U_a_p inpFull = 1 := by
  ext i j
  fin_cases i <;> fin_cases j <;>
    simp [Ferraris.U_a_p, Ferraris.accP, inpFull, niceInp, vecMean_singleton, Matrix.one_apply]

theorem U_a_d_full : Ferraris.U_a_d inpFull = (2 : ℝ) • 1 := by
  rw [Ferraris.U_a_d, U_a_p_full]
  rw [show Ferraris.U_a_n inpFull = -1 from U_a_n_nice _]
  ext i j
  simp [Matrix.one_apply]
  split <;> norm_num

theorem k_a_sq_full : Ferraris.k_a_sq inpFull = fun _ => 1 := by
  funext i
  rw [Ferraris.k_a_sq, U_a_d_full]
  simp [Matrix.mul_apply, Matrix.one_apply, Fin.sum_univ_three, inpFull, niceInp]
  fin_cases i <;> norm_num

theorem K_a_full : Ferraris.K_a inpFull = 1 := by
  rw [Ferraris.K_a, k_a_sq_full]
  simp [Matrix.diagonal_one]

theorem R_a_full : Ferraris.R_a inpFull = 1 := by
  rw [Ferraris.R_a, K_a_full, U_a_d_full]
  simp [inpFull, niceInp]

theorem b_a_full : Ferraris.b_a inpFull = fun _ => 0 := by
  funext i
  rw [Ferraris.b_a, Ferraris.B_a, U_a_p_full]
  rw [show Ferraris.U_a_n inpFull = -1 from U_a_n_nice _]
  simp

theorem b_g_nice (xp : List Vec3) : Ferraris.b_g (niceInp xp) = zeroV := by
  funext i
  simp [Ferraris.b_g, niceInp, vecMean, zeroV]

theorem K_ga_nice (xp : List Vec3) : Ferraris.K_ga (niceInp xp) = 0 := by
  have hp : Ferraris.U_g_p (niceInp xp) = 0 := by
    ext i j
    fin_cases j <;> simp [Ferraris.U_g_p, Ferraris.gyrP, niceInp, vecMean_singleton, zeroV]
  have ha : Ferraris.U_g_a (niceInp xp) = 0 := by
    ext i j
    fin_cases j <;> simp [Ferraris.U_g_a, Ferraris.gyrA, niceInp, vecMean_singleton, zeroV]
  rw [Ferraris.K_ga, hp, ha]
  simp

theorem gyrRotCor_nice (xp : List Vec3) (j : Fin 3) :
    Ferraris.gyrRotCor (niceInp xp) j = Ferraris.gyrRot (niceInp xp) j := by
  obtain ⟨v, hv⟩ : ∃ v, Ferraris.gyrRot (niceInp xp) j = [v] := by
    fin_cases j <;> exact ⟨_, rfl⟩
  obtain ⟨a, ha⟩ : ∃ a, Ferraris.accRot (niceInp xp) j = [a] := by
    fin_cases j <;> exact ⟨_, rfl⟩
  rw [Ferraris.gyrRotCor, Ferraris.accRotCor, hv, ha, calibrate_acc, calibrate_gyro_offsets]
  rw [b_g_nice, K_ga_nice]
  simp [Matrix.zero_mulVec, zeroV]
  funext i
  simp [zeroV]

theorem W_nice (xp : List Vec3) : Ferraris.W_s (niceInp xp) = (360 : ℝ) • 1 := by
  ext i j
  show vecSum (Ferraris.gyrRotCor (niceInp xp) j) i / (niceInp xp).sampling_rate = _
  rw [gyrRotCor_nice]
  fin_cases j <;> fin_cases i <;>
    simp [Ferraris.gyrRot, niceInp, vecSum, Matrix.smul_apply, Matrix.one_apply]

theorem expected_angles_nice (xp : List Vec3) :
    Ferraris.expected_angles (niceInp xp) = (360 : ℝ) • 1 := rfl

theorem det_360_smul_one : ((360 : ℝ) • (1 : Mat3)).det = 360 ^ 3 := by
  simp [Matrix.det_smul]

theorem multiplied_nice (xp : List Vec3) : Ferraris.multiplied (niceInp xp) = 1 := by
  rw [Ferraris.multiplied, W_nice, expected_angles_nice]
  exact Matrix.mul_nonsing_inv _ (by rw [det_360_smul_one]; norm_num)

theorem k_g_sq_nice (xp : List Vec3) : Ferraris.k_g_sq (niceInp xp) = fun _ => 1 := by
  funext i
  rw [Ferraris.k_g_sq, multiplied_nice]
  simp [Matrix.one_apply]

theorem K_g_nice (xp : List Vec3) : Ferraris.K_g (niceInp xp) = 1 := by
  rw [Ferraris.K_g, k_g_sq_nice]
  simp [Matrix.diagonal_one]

theorem computeOnInput_full :
    Ferraris.computeOnInput inpFull = .ok (Ferraris.ferrarisOut inpFull) := by
  rw [Ferraris.computeOnInput, K_a_full]
  rw [show Ferraris.expected_angles inpFull = (360 : ℝ) • 1 from expected_angles_nice _]
  rw [show Ferraris.K_g inpFull = 1 from K_g_nice _]
  rw [det_360_smul_one]
  norm_num

theorem U_a_d_empty : Ferraris.U_a_d inpEmptyXp = Matrix.diagonal ![1, 2, 2] := by
  rw [Ferraris.U_a_d]
  rw [show Ferraris.U_a_n inpEmptyXp = -1 from U_a_n_nice _]
  ext i j
  fin_cases i <;> fin_cases j <;>
    simp [Ferraris.U_a_p, Ferraris.accP, inpEmptyXp, niceInp, vecMean_singleton, vecMean_nil,
      zeroV, Matrix.diagonal, Matrix.one_apply]
  all_goals norm_num

theorem k_a_sq_empty : Ferraris.k_a_sq inpEmptyXp = ![1/4, 1, 1] := by
  funext i
  rw [Ferraris.k_a_sq, U_a_d_empty]
  rw [Matrix.diagonal_transpose, Matrix.diagonal_mul_diagonal]
  fin_cases i <;> simp [inpEmptyXp, niceInp] <;> norm_num

theorem K_a_empty_det : (Ferraris.K_a inpEmptyXp).det = 1/2 := by
  rw [Ferraris.K_a, k_a_sq_empty, Matrix.det_diagonal]
  have h14 : Real.sqrt (1/4) = 1/2 := by
    rw [show (1/4 : ℝ) = (1/2) ^ 2 by norm_num, Real.sqrt_sq (by norm_num)]
  have h4 : Real.sqrt 4 = 2 := by
    rw [show (4 : ℝ) = 2 ^ 2 by norm_num, Real.sqrt_sq (by norm_num)]
  simp [Fin.prod_univ_three, h14, h4]

theorem computeOnInput_empty :
    Ferraris.computeOnInput inpEmptyXp = .ok (Ferraris.ferrarisOut inpEmptyXp) := by
  rw [Ferraris.computeOnInput, K_a_empty_det]
  rw [show Ferraris.expected_angles inpEmptyXp = (360 : ℝ) • 1 from expected_angles_nice _]
  rw [show Ferraris.K_g inpEmptyXp = 1 from K_g_nice _]
  rw [det_360_smul_one]
  norm_num

theorem k_a_sq_inp0 : Ferraris.k_a_sq inp0 = fun _ => 0 := by
  have hd : Ferraris.U_a_d inp0 = 0 := by
    rw [Ferraris.U_a_d]
    ext i j
    fin_cases j <;>
      simp [Ferraris.U_a_p, Ferraris.U_a_n, Ferraris.accP, Ferraris.accA, inp0,
        vecMean_singleton, zeroV]
  funext i
  rw [Ferraris.k_a_sq, hd]
  simp

theorem K_a_inp0_diag_zero : Ferraris.K_a inp0 0 0 = 0 := by
  rw [Ferraris.K_a, Matrix.diagonal_apply_eq, k_a_sq_inp0]
  simp

/-- Keyword arguments carrying the ideal segments of `niceInp`. -/
def fullKw : SegKwargs :=
  { acc_x_p := some [![1, 0, 0]], acc_x_a := some [![-1, 0, 0]],
    acc_y_p := some [![0, 1, 0]], acc_y_a := some [![0, -1, 0]],
    acc_z_p := some [![0, 0, 1]], acc_z_a := some [![0, 0, -1]],
    gyr_x_p := some [zeroV], gyr_x_a := some [zeroV],
    gyr_y_p := some [zeroV], gyr_y_a := some [zeroV],
    gyr_z_p := some [zeroV], gyr_z_a := some [zeroV],
    acc_x_rot := some [zeroV], acc_y_rot := some [zeroV], acc_z_rot := some [zeroV],
    gyr_x_rot := some [![360, 0, 0]], gyr_y_rot := some [![0, 360, 0]],
    gyr_z_rot := some [![0, 0, 360]] }

/-- The same keyword arguments with an empty positive x static segment. -/
def emptyKw : SegKwargs := { fullKw with acc_x_p := some [] }

/-- A session built from the ideal segments. -/
def sFull : FerrarisCalibration := FerrarisCalibration.init 1 (some 1) (some 360) fullKw

/-- A session whose positive x static segment is empty. -/
def sEmpty : FerrarisCalibration := FerrarisCalibration.init 1 (some 1) (some 360) emptyKw

/-- A session constructed with an explicit zero expected rotation angle. -/
def sZeroAngle : FerrarisCalibration := FerrarisCalibration.init 1 (some 1) (some 0) fullKw

/-- A session constructed with no segment keyword arguments at all. -/
def sMissing : FerrarisCalibration := FerrarisCalibration.init 1 none none {}

theorem sFull_materialize : sFull.materialize = .ok inpFull := by
  simp [sFull, FerrarisCalibration.init, fullKw, FerrarisCalibration.materialize, requireSeg,
    bind, Except.bind, pure, Except.pure, inpFull, niceInp, pyOr, DEFAULT_GRAV, EXPECTED_ANGLE]

theorem sEmpty_materialize : sEmpty.materialize = .ok inpEmptyXp := by
  simp [sEmpty, emptyKw, FerrarisCalibration.init, fullKw, FerrarisCalibration.materialize,
    requireSeg, bind, Except.bind, pure, Except.pure, inpEmptyXp, niceInp, pyOr,
    DEFAULT_GRAV, EXPECTED_ANGLE]

theorem sZeroAngle_materialize : sZeroAngle.materialize = .ok inpFull := by
  simp [sZeroAngle, FerrarisCalibration.init, fullKw, FerrarisCalibration.materialize,
    requireSeg, bind, Except.bind, pure, Except.pure, inpFull, niceInp, pyOr,
    DEFAULT_GRAV, EXPECTED_ANGLE]

theorem sEmpty_compute :
    sEmpty.compute_calibration_matrix = .ok (Ferraris.ferrarisOut inpEmptyXp) := by
  rw [FerrarisCalibration.compute_calibration_matrix, sEmpty_materialize]
  exact computeOnInput_empty

theorem sZeroAngle_compute :
    sZeroAngle.compute_calibration_matrix = .ok (Ferraris.ferrarisOut inpFull) := by
  rw [FerrarisCalibration.compute_calibration_matrix, sZeroAngle_materialize]
  exact computeOnInput_full

theorem pyOr_none (d : ℝ) : pyOr none d = d := rfl

theorem pyOr_some_zero (d : ℝ) : pyOr (some 0) d = d := if_pos rfl

theorem pyOr_some_ne_zero {v : ℝ} (d : ℝ) (h : v ≠ 0) : pyOr (some v) d = v := if_neg h

theorem pyOr_ne_zero (x : Option ℝ) {d : ℝ} (hd : d ≠ 0) : pyOr x d ≠ 0 := by
  cases x with
  | none => exact hd
  | some v =>
      by_cases hv : v = 0
      · rw [pyOr, if_pos hv]; exact hd
      · rw [pyOr, if_neg hv]; exact hv

theorem DEFAULT_GRAV_ne_zero : DEFAULT_GRAV ≠ 0 := by
  rw [DEFAULT_GRAV]; norm_num

theorem EXPECTED_ANGLE_ne_zero : EXPECTED_ANGLE ≠ 0 := by
  rw [EXPECTED_ANGLE]; norm_num

theorem ferrarisFieldsEq_iff (a b : FerrarisCalibrationInfo) : ferrarisFieldsEq a b ↔ a = b := by
  cases a
  cases b
  simp [ferrarisFieldsEq]

theorem otherFieldsEq_iff (a b : OtherCalibrationInfo) : otherFieldsEq a b ↔ a = b := by
  cases a
  cases b
  simp [otherFieldsEq]

/-- A concrete Ferraris record with zero parameter matrices. -/
def rDemo : FerrarisCalibrationInfo :=
  { b_a := zeroV, K_a := 0, R_a := 0, b_g := zeroV, K_g := 0, R_g := 0, K_ga := 0 }

/-- The same record with an empty-string comment (a present but falsy
metadata value). -/
def rEmptyComment : FerrarisCalibrationInfo := { rDemo with comment := some "" }

/-- A concrete record of the sibling concrete subtype. -/
def oDemo : OtherCalibrationInfo := { b := zeroV }

/-- A class hierarchy of depth two below the base class, exercising the
transitive search. -/
def demoTree : CalClassTree :=
  .node "CalibrationInfo" [.node "Mid" [.node "Leaf" []]]

/-! ## Claim theorems -/

theorem valid_inpFull : inpFull.Valid := by
  simp [FerrarisInput.Valid, inpFull, niceInp]

/-- C1: for every valid nine-segment input, the accelerometer parameters of
the record produced by `compute_calibration_matrix` follow the specified
formulas: with `U_p`/`U_n` the matrices whose columns are the per-axis means
of the positive/negative static segments, `b_a` is the diagonal of
`(U_p + U_n)/2`, `K_a` is the diagonal matrix of the square roots of the
diagonal of `(U_p - U_n)(U_p - U_n)ᵀ/(4·gravity²)`, and
`R_a = K_a⁻¹ · (U_p - U_n)/(2·gravity)`. -/
theorem C1_acc_parameters_follow_spec (s : FerrarisInput) (hv : s.Valid)
    (r : FerrarisCalibrationInfo) (hr : Ferraris.computeOnInput s = .ok r) :
    r.b_a = FerrarisSpec.spec_b_a s ∧ r.K_a = FerrarisSpec.spec_K_a s ∧
      r.R_a = FerrarisSpec.spec_R_a s := by
  rw [Ferraris.computeOnInput] at hr
  split_ifs at hr
  injection hr with h
  subst h
  exact ⟨Ferraris.b_a_eq_spec s, Ferraris.K_a_eq_spec s, Ferraris.R_a_eq_spec s⟩

/-- Witness for C1 at the ideal nine-segment input. -/
theorem C1_witness :
    inpFull.Valid ∧
      ((Ferraris.ferrarisOut inpFull).b_a = FerrarisSpec.spec_b_a inpFull ∧
       (Ferraris.ferrarisOut inpFull).K_a = FerrarisSpec.spec_K_a inpFull ∧
       (Ferraris.ferrarisOut inpFull).R_a = FerrarisSpec.spec_R_a inpFull) :=
  ⟨valid_inpFull,
   C1_acc_parameters_follow_spec inpFull valid_inpFull _ computeOnInput_full⟩

/-- C2: for every valid nine-segment input, the gyroscope scale and rotation
are computed in exactly the specified order: the rotation-segment
acceleration is corrected with the already-estimated accelerometer
transform, then `gyro_raw - b_g - K_ga·acc_calibrated` is removed sample by
sample, each corrected segment is integrated as (sum of samples)/sampling
rate into a column of `W`, `M = W·(expected_angle·I)⁻¹`, `K_g` is the
diagonal matrix of the square roots of the diagonal of `M·Mᵀ`, and
`R_g = K_g⁻¹·M`. -/
theorem C2_gyro_pipeline_follows_spec (s : FerrarisInput) (hv : s.Valid)
    (r : FerrarisCalibrationInfo) (hr : Ferraris.computeOnInput s = .ok r) :
    r.K_g = FerrarisSpec.spec_K_g s ∧ r.R_g = FerrarisSpec.spec_R_g s := by
  rw [Ferraris.computeOnInput] at hr
  split_ifs at hr
  injection hr with h
  subst h
  exact ⟨Ferraris.K_g_eq_spec s, Ferraris.R_g_eq_spec s⟩

/-- Witness for C2 at the ideal nine-segment input. -/
theorem C2_witness :
    inpFull.Valid ∧
      ((Ferraris.ferrarisOut inpFull).K_g = FerrarisSpec.spec_K_g inpFull ∧
       (Ferraris.ferrarisOut inpFull).R_g = FerrarisSpec.spec_R_g inpFull) :=
  ⟨valid_inpFull,
   C2_gyro_pipeline_follows_spec inpFull valid_inpFull _ computeOnInput_full⟩

/-- C3 (amended): a missing segment label makes
`compute_calibration_matrix` raise before producing a record; an empty
segment, however, is NOT rejected — the computation completes and returns a
record (built from the degenerate `np.mean` of an empty array, which in
numpy is NaN with only a RuntimeWarning). -/
theorem C3_missing_fails_but_empty_not_rejected :
    (∀ s : FerrarisCalibration, s.SomeSegmentMissing →
        exceptError s.compute_calibration_matrix = true) ∧
    (sEmpty.acc_x_p = some [] ∧ exceptOk sEmpty.compute_calibration_matrix = true) :=
  ⟨fun _ h => compute_error_of_missing h,
   ⟨rfl, by rw [sEmpty_compute]; rfl⟩⟩

/-- C3 counterexample: with the positive x static segment empty,
`compute_calibration_matrix` returns a record, contradicting the claim that
it never returns one under this precondition violation. -/
theorem C3_counterexample_empty_segment_returns_record :
    sEmpty.acc_x_p = some [] ∧ exceptOk sEmpty.compute_calibration_matrix = true :=
  ⟨rfl, by rw [sEmpty_compute]; rfl⟩

/-- Witness for C3 at a session constructed without any segment kwargs. -/
theorem C3_witness :
    sMissing.acc_x_p = none ∧ exceptError sMissing.compute_calibration_matrix = true :=
  ⟨rfl, C3_missing_fails_but_empty_not_rejected.1 sMissing (Or.inl rfl)⟩

/-- C4: deserializing the JSON serialization of any Ferraris calibration
record yields a record structurally equal to the original. -/
theorem C4_json_roundtrip :
    ∀ r : FerrarisCalibrationInfo, from_json (to_json r) = .ok r :=
  json_roundtrip

/-- C5 (amended): the hierarchical (HDF5) round trip returns the record
with every falsy optional metadata field — absent `None` OR a present empty
string — read back as the not-set value; records whose optional fields are
all either unset or non-empty round-trip exactly, but a present empty-string
field is silently dropped. -/
theorem C5_hdf5_roundtrip_squashes_falsy :
    ∀ r : FerrarisCalibrationInfo, from_hdf5 (to_hdf5 r) = .ok (hdfNormalize r) :=
  hdf5_roundtrip

/-- C5 counterexample: a record with `comment` set to the empty string does
not round-trip through the hierarchical container — the falsy field is
omitted on write and read back as not-set. -/
theorem C5_counterexample_empty_string_comment :
    from_hdf5 (to_hdf5 rEmptyComment) ≠ .ok rEmptyComment := by
  rw [hdf5_roundtrip]
  intro h
  injection h with h
  have hc := congrArg FerrarisCalibrationInfo.comment h
  simp [hdfNormalize, squashFalsy, rEmptyComment, rDemo] at hc

/-- C6 (code bug): `Path.suffix` keeps its leading dot, but
`load_calibration_info` compares it against the bare strings
`"json"`/`"hdf"`/`"h5"`, so suffix-based format detection never succeeds and
every call without an explicit format raises, contradicting the function's
own docstring; an explicit unsupported format also raises. -/
theorem C6_suffix_detection_never_matches :
    pathSuffix "foo.json" = ".json" ∧
    exceptError (load_calibration_info_format "foo.json" none) = true ∧
    exceptError (load_calibration_info_format "foo.h5" none) = true ∧
    exceptError (load_calibration_info_format "foo.json" (some "bogus")) = true := by
  decide

/-- C7: `find_subclass_from_cal_type` searches the registered hierarchy
transitively — direct children are enumerated, and a subclass of a subclass
of `root` is also enumerated — returns the first enumerated class whose
`CAL_TYPE` equals the tag, and yields no class at all (the bare `next`
raises `StopIteration`) when no registered class matches, never a default. -/
theorem C7_find_subclass_transitive_first_match (root : CalClassTree) (tag : String) :
    (∀ m ∈ root.children, m ∈ getSubclasses root) ∧
    (∀ c m, m ∈ getSubclasses root → c ∈ getSubclasses m → c ∈ getSubclasses root) ∧
    (find_subclass_from_cal_type root tag = none ↔
      ∀ c ∈ getSubclasses root, c.tag ≠ tag) ∧
    (∀ c, find_subclass_from_cal_type root tag = some c →
      c.tag = tag ∧ c ∈ getSubclasses root) ∧
    find_subclass_from_cal_type root tag =
      ((getSubclasses root).filter fun c => c.tag == tag).head? := by
  refine ⟨fun _ hm => getSubclasses_children_sub hm,
    fun _ _ hm hc => getSubclasses_trans hm hc, ?_, ?_, find?_eq_filter_head? _ _⟩
  · rw [find_subclass_from_cal_type, List.find?_eq_none]
    constructor
    · intro h c hc
      simpa using h c hc
    · intro h c hc
      simpa using h c hc
  · intro c hc
    exact ⟨by simpa using List.find?_some hc, List.mem_of_find?_eq_some hc⟩

/-- Witness for C7 on a depth-two hierarchy: the grandchild class is found
transitively, and an unregistered tag yields no class. -/
theorem C7_witness :
    CalClassTree.node "Leaf" [] ∈ getSubclasses demoTree ∧
    find_subclass_from_cal_type demoTree "zzz" = none := by
  constructor
  · refine (C7_find_subclass_transitive_first_match demoTree "Leaf").2.1 _
      (CalClassTree.node "Mid" [CalClassTree.node "Leaf" []]) ?_ ?_
    · exact (C7_find_subclass_transitive_first_match demoTree "Leaf").1 _
        (List.mem_singleton.mpr rfl)
    · exact (C7_find_subclass_transitive_first_match
        (CalClassTree.node "Mid" [CalClassTree.node "Leaf" []]) "Leaf").1 _
        (List.mem_singleton.mpr rfl)
  · exact (C7_find_subclass_transitive_first_match demoTree "zzz").2.2.1.mpr (by decide)

/-- C8: comparing two calibration records raises a `ValueError` when the
operands are of different concrete subtypes; within one concrete subtype the
comparison is exactly structural equality of all fields (element-wise on
parameter arrays, exact on scalar fields). -/
theorem C8_eq_raises_across_subtypes (x y : AnyCalInfo) :
    (x.calType ≠ y.calType →
      calEq x y =
        .error "ValueError: Comparison is only defined between two objects of the same class") ∧
    (∀ P, calEq x y = .ok P → (P ↔ x = y)) := by
  constructor
  · intro hne
    cases x <;> cases y <;> first | rfl | exact absurd rfl hne
  · intro P hP
    cases x with
    | ferraris a =>
        cases y with
        | ferraris b =>
            injection hP with h
            subst h
            rw [ferrarisFieldsEq_iff]
            simp
        | other b => exact Except.noConfusion hP
    | other a =>
        cases y with
        | ferraris b => exact Except.noConfusion hP
        | other b =>
            injection hP with h
            subst h
            rw [otherFieldsEq_iff]
            simp

/-- Witness for C8 at concrete records of the two sibling subtypes. -/
theorem C8_witness :
    calEq (.ferraris rDemo) (.other oDemo) =
      .error "ValueError: Comparison is only defined between two objects of the same class" ∧
    (ferrarisFieldsEq rDemo rDemo ↔ AnyCalInfo.ferraris rDemo = AnyCalInfo.ferraris rDemo) :=
  ⟨(C8_eq_raises_across_subtypes _ _).1 (by simp [AnyCalInfo.calType]),
   (C8_eq_raises_across_subtypes _ _).2 (ferrarisFieldsEq rDemo rDemo) rfl⟩

/-- C9 (amended): a zero scale factor — a zero diagonal entry of `K_a` or
`K_g` — or a zero `expected_angle` value in the session state makes the
corresponding inversion raise `LinAlgError`, surfacing the failure; but a
zero expected rotation angle passed at construction never reaches the
computation, because `__init__` silently replaces it with the default 360
(see the counterexample). -/
theorem C9_zero_scale_surfaces_failure (s : FerrarisInput)
    (h : (∃ i, Ferraris.K_a s i i = 0) ∨ s.expected_angle = 0 ∨
      (∃ i, Ferraris.K_g s i i = 0)) :
    exceptError (Ferraris.computeOnInput s) = true := by
  rw [Ferraris.computeOnInput]
  split_ifs with h1 h2 h3
  · rfl
  · rfl
  · rfl
  · exfalso
    rcases h with ⟨i, hi⟩ | ha | ⟨i, hi⟩
    · apply h1
      rw [Ferraris.K_a, Matrix.diagonal_apply_eq] at hi
      rw [Ferraris.K_a, Matrix.det_diagonal]
      exact Finset.prod_eq_zero (Finset.mem_univ i) hi
    · apply h2
      rw [Ferraris.expected_angles, ha]
      simp
    · apply h3
      rw [Ferraris.K_g, Matrix.diagonal_apply_eq] at hi
      rw [Ferraris.K_g, Matrix.det_diagonal]
      exact Finset.prod_eq_zero (Finset.mem_univ i) hi

/-- Witness for C9 at the all-zero session, whose accelerometer scale
factors are all zero. -/
theorem C9_witness :
    ((∃ i, Ferraris.K_a inp0 i i = 0) ∨ inp0.expected_angle = 0 ∨
      (∃ i, Ferraris.K_g inp0 i i = 0)) ∧
    exceptError (Ferraris.computeOnInput inp0) = true :=
  ⟨Or.inl ⟨0, K_a_inp0_diag_zero⟩,
   C9_zero_scale_surfaces_failure inp0 (Or.inl ⟨0, K_a_inp0_diag_zero⟩)⟩

/-- C9 counterexample: constructing a calibration with
`expected_angle = 0` does not surface any failure — the zero is silently
replaced by the default 360 and the estimation succeeds. -/
theorem C9_counterexample_zero_angle_masked_by_default :
    sZeroAngle.expected_angle = 360 ∧
    exceptOk sZeroAngle.compute_calibration_matrix = true := by
  constructor
  · show pyOr (some 0) EXPECTED_ANGLE = 360
    rw [pyOr_some_zero, EXPECTED_ANGLE]
  · rw [sZeroAngle_compute]
    rfl

/-- C10: `__init__` replaces a falsy override of the physical constants by
the class default — `grav = 0` or `None` stores 9.81 and
`expected_angle = 0` or `None` stores 360 — so a zero value for either
never reaches `compute_calibration_matrix`. -/
theorem C10_falsy_constants_replaced_by_defaults (rate : ℝ) (kw : SegKwargs) :
    (FerrarisCalibration.init rate (some 0) (some 0) kw).grav = 9.81 ∧
    (FerrarisCalibration.init rate (some 0) (some 0) kw).expected_angle = 360 ∧
    (FerrarisCalibration.init rate none none kw).grav = 9.81 ∧
    (FerrarisCalibration.init rate none none kw).expected_angle = 360 ∧
    ∀ g a : Option ℝ, (FerrarisCalibration.init rate g a kw).grav ≠ 0 ∧
      (FerrarisCalibration.init rate g a kw).expected_angle ≠ 0 := by
  refine ⟨?_, ?_, rfl, rfl, ?_⟩
  · show pyOr (some 0) DEFAULT_GRAV = 9.81
    rw [pyOr_some_zero]
    rfl
  · show pyOr (some 0) EXPECTED_ANGLE = 360
    rw [pyOr_some_zero]
    rfl
  · exact fun g a => ⟨pyOr_ne_zero g DEFAULT_GRAV_ne_zero, pyOr_ne_zero a EXPECTED_ANGLE_ne_zero⟩
